import Mathlib

/-!
Verification development for the fine-voicing voice-AI test harness core:
the two provider protocol clients
(`fine_voicing/tools/openai_realtime_client.py`, Provider A, and
`fine_voicing/tools/ultravox_client.py`, Provider B) and the session bridge
(`fine_voicing/tools/voice_ai_model_thread.py`).

The wire traffic of one `send_message` call is modelled as the list of frames
the websocket delivers before it closes: each element is `some j` when
`json.loads` succeeds with decoded value `j`, and `none` when `json.loads`
raises `JSONDecodeError`.  Exhausting the list models `recv` raising
`websockets.exceptions.ConnectionClosed`.  Python exceptions are modelled by
the `PyError` error type of `Except` results.
-/

/-- Decoded JSON values, as produced by `json.loads`.  Numbers are modelled as
rationals (enough for the literals appearing in this code base, e.g. the
temperature 0.7). -/
inductive Json where
  | null : Json
  | bool (b : Bool) : Json
  | num (q : ℚ) : Json
  | str (s : String) : Json
  | arr (elems : List Json) : Json
  | obj (fields : List (String × Json)) : Json

/-- Key lookup in a decoded JSON object, i.e. Python `dict.get(key)`:
`none` models Python `None`. -/
def jsonLookup : List (String × Json) → String → Option Json
  | [], _ => none
  | (k, v) :: rest, key => if k = key then some v else jsonLookup rest key

/-- Python truthiness of a decoded JSON value, as used by `bool(...)`. -/
def Json.truthy : Json → Bool
  | .null => false
  | .bool b => b
  | .num q => decide (q ≠ 0)
  | .str s => decide (s ≠ "")
  | .arr elems => !elems.isEmpty
  | .obj fields => !fields.isEmpty

/-- The Python exceptions this code can raise. -/
inductive PyError where
  /-- `json.JSONDecodeError` from `json.loads`. -/
  | decodeError : PyError
  /-- `AttributeError`, e.g. `.get` or `.send` on `None` or on a non-dict. -/
  | attributeError : PyError
  /-- `KeyError` from subscripting a dict with a missing key. -/
  | keyError : PyError
  /-- `IndexError` from subscripting a list out of range. -/
  | indexError : PyError
  /-- `TypeError` from subscripting a value that does not support the key. -/
  | typeError : PyError
  /-- `websockets.exceptions.ConnectionClosed` escaping uncaught. -/
  | connectionClosed : PyError
  /-- A failure raised by `websockets.connect` (bad network, handshake). -/
  | connectError : PyError
  /-- `Exception("Session update error: ...")` from `update_session`. -/
  | sessionUpdateError (msg : Json) : PyError
  /-- `Exception("OpenAI Realtime API error: ...")` from the read loop. -/
  | apiError (msg : Json) : PyError

/-- Python subscription `j[key]` with a string key: dicts look the key up and
raise `KeyError` when absent; every other decoded JSON value raises
`TypeError`. -/
def pySubscrStr (j : Json) (key : String) : Except PyError Json :=
  match j with
  | .obj fields =>
    match jsonLookup fields key with
    | some v => .ok v
    | none => .error .keyError
  | _ => .error .typeError

/-- Python subscription `j[i]` with a non-negative integer: lists index and
raise `IndexError` out of range, strings yield the one-character string,
dicts decoded from JSON have only string keys so raise `KeyError`, and the
remaining values raise `TypeError`. -/
def pySubscrNat (j : Json) (i : Nat) : Except PyError Json :=
  match j with
  | .arr elems =>
    match elems.get? i with
    | some v => .ok v
    | none => .error .indexError
  | .str s =>
    match s.toList.get? i with
    | some c => .ok (.str (String.mk [c]))
    | none => .error .indexError
  | .obj _ => .error .keyError
  | _ => .error .typeError

/-- The unguarded extraction `response["output"][0]["content"][0]["text"]`
performed by `OpenAIRealtimeClient.send_message` on a completed response
(openai_realtime_client.py line 123). -/
def extractCompletedText (response : Json) : Except PyError Json := do
  let output ← pySubscrStr response "output"
  let item0 ← pySubscrNat output 0
  let content ← pySubscrStr item0 "content"
  let part0 ← pySubscrNat content 0
  pySubscrStr part0 "text"

/-- The read loop of `OpenAIRealtimeClient.send_message`
(openai_realtime_client.py lines 109-137), over the list of frames delivered
before the transport closes.

Faithful points: `full_response` starts as the empty string and is only ever
assigned immediately before `break`, so when `recv` raises
`ConnectionClosed` (the exhausted list) the caught handler returns the empty
string.  `OPENAI_OBSERVED_EVENTS` is exactly
`["response.done", "error"]`, so the membership test followed by the inner
dispatch collapses to the two match arms below; every other event type is
logged and the loop continues.  The only `except` clause catches
`ConnectionClosed`: a frame on which `json.loads` fails raises
`JSONDecodeError` out of `send_message`, and a decoded frame that is not a
dict makes `data.get("type")` raise `AttributeError`, both uncaught. -/
def oai_read_loop : List (Option Json) → Except PyError Json
  | [] => .ok (.str "")
  | none :: _ => .error .decodeError
  | some data :: rest =>
    match data with
    | .obj fields =>
      match jsonLookup fields "type" with
      | some (.str "response.done") =>
        -- response = data.get("response"); response_status = response.get("status")
        (match jsonLookup fields "response" with
         | some (.obj rfields) =>
           (match jsonLookup rfields "status" with
            | some (.str "completed") => extractCompletedText (.obj rfields)
            | _ => .ok (.str "<Error>"))
         | some _ => .error .attributeError
         | none => .error .attributeError)
      | some (.str "error") =>
        -- error_message = data.get("error", {}).get("message", "Unknown error")
        (match jsonLookup fields "error" with
         | some (.obj efields) =>
           .error (.apiError ((jsonLookup efields "message").getD (.str "Unknown error")))
         | some _ => .error .attributeError
         | none => .error (.apiError (.str "Unknown error")))
      | _ => oai_read_loop rest
    | _ => .error .attributeError

/-- The read loop of `UltraVoxClient.send_message` (ultravox_client.py lines
99-120).  `ULTRAVOX_OBSERVED_EVENTS` is exactly `["transcript"]`.  The inner
`except json.JSONDecodeError` logs and continues, so a `none` frame is
skipped; a decoded non-dict frame still raises `AttributeError` at
`data.get("type")`, uncaught.  A transcript frame with truthy `final` ends
the loop with `data.get("text", "")`; all other frames are logged and
skipped.  The exhausted list models `ConnectionClosed`, caught, returning
the never-reassigned initial empty `full_response`. -/
def uv_read_loop : List (Option Json) → Except PyError Json
  | [] => .ok (.str "")
  | none :: rest => uv_read_loop rest
  | some data :: rest =>
    match data with
    | .obj fields =>
      match jsonLookup fields "type" with
      | some (.str "transcript") =>
        if ((jsonLookup fields "final").getD (.bool false)).truthy then
          .ok ((jsonLookup fields "text").getD (.str ""))
        else
          uv_read_loop rest
      | _ => uv_read_loop rest
    | _ => .error .attributeError

/-- A well-formed `response.done` frame carrying the given status and output
payload, as produced by the OpenAI Realtime API. -/
def response_done_frame (status : String) (output : Json) : Json :=
  .obj [("type", .str "response.done"),
        ("response", .obj [("status", .str status), ("output", output)])]

/-- The output payload of a completed response whose single text part is
`text`: the shape read by `response["output"][0]["content"][0]["text"]`. -/
def completed_output (text : String) : Json :=
  .arr [.obj [("content", .arr [.obj [("type", .str "text"), ("text", .str text)]])]]

/-- A well-formed UltraVox `transcript` frame with the given `final` flag and
`text` payload. -/
def transcript_frame (final : Bool) (text : String) : Json :=
  .obj [("type", .str "transcript"), ("final", .bool final), ("text", .str text)]

/-- Constant `OPENAI_REALTIME_DEFAULT_VOICE` (constants.py line 8). -/
def OPENAI_REALTIME_DEFAULT_VOICE : String := "alloy"

/-- State of an `OpenAIRealtimeClient` instance: the constructor arguments the
bridge passes, the `session_updated` flag, and `ws` — `none` when no
connection exists, `some sent` when connected with `sent` the frames written
to the transport since `websockets.connect` succeeded. -/
structure OAIClient where
  instructions : String
  voice : String
  session_updated : Bool
  ws : Option (List Json)

/-- A freshly constructed `OpenAIRealtimeClient(instructions=...)`
(openai_realtime_client.py lines 26-33): `session_updated = False`,
`ws = None`, default voice. -/
def OAIClient.mk0 (instructions : String) : OAIClient :=
  { instructions := instructions, voice := OPENAI_REALTIME_DEFAULT_VOICE,
    session_updated := false, ws := none }

/-- `OpenAIRealtimeClient.connect` (lines 34-48): a no-op when `ws` is
already set, otherwise attempts `websockets.connect`; `netOk` says whether
that call succeeds.  On failure the exception propagates and `self.ws` stays
`None` (the assignment never ran); the first component is the raised
exception, when any, and the second the state of the object afterwards. -/
def OAIClient.connect (c : OAIClient) (netOk : Bool) : Option PyError × OAIClient :=
  match c.ws with
  | some _ => (none, c)
  | none =>
    if netOk then (none, { c with ws := some [] })
    else (some .connectError, c)

/-- The `session.update` configuration frame built by
`OpenAIRealtimeClient.update_session` (lines 58-67). -/
def session_config_frame (voice instructions : String) : Json :=
  .obj [("type", .str "session.update"),
        ("session", .obj
          [("turn_detection", .null),
           ("voice", .str voice),
           ("instructions", .str instructions),
           ("modalities", .arr [.str "text"]),
           ("temperature", .num ((7 : ℚ) / 10))])]

/-- The acknowledgment-wait loop of `update_session` (lines 71-80): reads
frames until a `session.updated` frame (success) or an `error` frame
(raises `Exception("Session update error: ...")`); all other frames are
logged and skipped.  There is no `except` clause here at all, so a closed
transport (`[]`) raises `ConnectionClosed` and a malformed frame raises
`JSONDecodeError`, both uncaught; a decoded non-dict frame raises
`AttributeError` at `data.get("type")`. -/
def session_update_wait : List (Option Json) → Except PyError Unit
  | [] => .error .connectionClosed
  | none :: _ => .error .decodeError
  | some data :: rest =>
    match data with
    | .obj fields =>
      match jsonLookup fields "type" with
      | some (.str "session.updated") => .ok ()
      | some (.str "error") =>
        (match jsonLookup fields "error" with
         | some (.obj efields) =>
           .error (.sessionUpdateError ((jsonLookup efields "message").getD (.str "Unknown error")))
         | some _ => .error .attributeError
         | none => .error (.sessionUpdateError (.str "Unknown error")))
      | _ => session_update_wait rest
    | _ => .error .attributeError

/-- `OpenAIRealtimeClient.update_session` (lines 56-82).  The guard is
`if not self.session_updated`; note that the source initializes
`session_updated = False` in `__init__` and NEVER assigns it `True`
anywhere, so on a real client the `else` branch (log "already up-to-date")
is unreachable and every call with a live `ws` sends the configuration
frame again.  `self.ws.send` on a `None` transport raises
`AttributeError`.  The frame is written to the transport before the
acknowledgment wait, so it counts as sent even when the wait then raises.
`incoming` is the list of frames the transport delivers during the wait. -/
def OAIClient.update_session (c : OAIClient) (incoming : List (Option Json)) :
    Option PyError × OAIClient :=
  if c.session_updated then (none, c)
  else
    match c.ws with
    | none => (some .attributeError, c)
    | some sent =>
      let c1 := { c with ws := some (sent ++ [session_config_frame c.voice c.instructions]) }
      match session_update_wait incoming with
      | .ok _ => (none, c1)
      | .error e => (some e, c1)

/-- The `conversation.item.create` frame sent by
`OpenAIRealtimeClient.send_message` (lines 88-98). -/
def conversation_item_frame (text : String) : Json :=
  .obj [("type", .str "conversation.item.create"),
        ("item", .obj
          [("type", .str "message"),
           ("role", .str "user"),
           ("content", .arr [.obj [("type", .str "input_text"), ("text", .str text)]])])]

/-- The `response.create` frame sent by `OpenAIRealtimeClient.send_message`
(lines 100-105). -/
def response_create_frame : Json :=
  .obj [("type", .str "response.create"),
        ("response", .obj [("modalities", .arr [.str "text"])])]

/-- `OpenAIRealtimeClient.send_message` (lines 84-137): writes the two
outbound frames, then runs the read loop over `incoming`.  With `ws = None`
the first `self.ws.send` raises `AttributeError`.  Returns the raised
exception when any, the object state afterwards, and the returned value
when the call returned. -/
def OAIClient.send_message (c : OAIClient) (text : String) (incoming : List (Option Json)) :
    Option PyError × OAIClient × Option Json :=
  match c.ws with
  | none => (some .attributeError, c, none)
  | some sent =>
    let c1 := { c with ws := some (sent ++ [conversation_item_frame text, response_create_frame]) }
    match oai_read_loop incoming with
    | .ok r => (none, c1, some r)
    | .error e => (some e, c1, none)

/-- State of a `VoiceAIModelThread` bridge restricted to what its lazy
initialization touches: the constructor-supplied instructions and
`self.client` (voice_ai_model_thread.py lines 14-26, Provider A). -/
structure VoiceAIModelThread where
  instructions : String
  client : Option OAIClient

/-- A freshly constructed bridge: `client = None`. -/
def VoiceAIModelThread.mk0 (instructions : String) : VoiceAIModelThread :=
  { instructions := instructions, client := none }

/-- The bridge coroutine `_initialize` for Provider A
(voice_ai_model_thread.py lines 57-73).  Crucially the source assigns
`self.client = OpenAIRealtimeClient(...)` BEFORE awaiting `connect` and
`update_session`, so even when one of those raises, the client object (in
whatever partial state it reached) remains assigned.  Returns the raised
exception, when any, together with the client object as left assigned. -/
def VoiceAIModelThread.init_client (instructions : String) (netOk : Bool)
    (handshake : List (Option Json)) : Option PyError × OAIClient :=
  let c0 := OAIClient.mk0 instructions
  match c0.connect netOk with
  | (some e, c1) => (some e, c1)
  | (none, c1) =>
    match c1.update_session handshake with
    | (some e, c2) => (some e, c2)
    | (none, c2) => (none, c2)

/-- The coroutine body of `VoiceAIModelThread.send_message` (lines 48-55):
when `self.client is None` it awaits `_initialize` first (an exception there
propagates to this caller), then awaits `self.client.send_message`.
`netOk` and `handshake` parameterize a lazy initialization, `incoming` the
frames of the message exchange itself. -/
def VoiceAIModelThread.send_message (b : VoiceAIModelThread) (text : String)
    (netOk : Bool) (handshake incoming : List (Option Json)) :
    Option PyError × VoiceAIModelThread × Option Json :=
  match b.client with
  | none =>
    match VoiceAIModelThread.init_client b.instructions netOk handshake with
    | (some e, c1) => (some e, { b with client := some c1 }, none)
    | (none, c1) =>
      match c1.send_message text incoming with
      | (e?, c2, r) => (e?, { b with client := some c2 }, r)
  | some c =>
    match c.send_message text incoming with
    | (e?, c2, r) => (e?, { b with client := some c2 }, r)

/-- The bridge state relevant to `stop()` (voice_ai_model_thread.py lines
75-90): whether `self.client` is set, whether the dedicated event loop is
running (`run_forever`), and whether the dedicated thread is alive. -/
structure ThreadState where
  clientSome : Bool
  loopRunning : Bool
  threadAlive : Bool

/-- A freshly constructed bridge after `_setup_thread` returned: the loop
thread is started at construction time and is running `run_forever`; no
client yet. -/
def ThreadState.fresh : ThreadState :=
  { clientSome := false, loopRunning := true, threadAlive := true }

/-- `VoiceAIModelThread.stop` (lines 75-90), called from a caller thread
distinct from the dedicated thread.  Result `some s` is the state when the
call returns; `none` means the call never returns.

When the loop is running: `_run_coroutine(_cleanup())` submits the cleanup
coroutine with `asyncio.run_coroutine_threadsafe` and blocks on
`future.result()`; the running loop executes it (disconnect errors are
caught and logged inside `_cleanup`, and the surrounding `try/except`
catches any other exception), leaving `self.client = None`; then
`call_soon_threadsafe(loop.stop)` stops the loop, `run_forever` returns,
the thread exits and `join()` returns.

When the loop has already been stopped (a previous `stop()`): the loop is
stopped but never closed, so `run_coroutine_threadsafe` still schedules the
coroutine onto it — but the loop never runs again, the future is never
resolved, and `future.result()` (no timeout) blocks forever.  Hanging is
not an exception, so the `try/except Exception` around `_run_coroutine`
does not help: the call never returns. -/
def ThreadState.stop (t : ThreadState) : Option ThreadState :=
  if t.loopRunning then
    some { clientSome := false, loopRunning := false, threadAlive := false }
  else
    none

/-- Frames the Provider A read loop merely logs and skips: a decoded JSON
object whose `type` is neither `response.done` nor `error` (the
`OPENAI_OBSERVED_EVENTS`).  Malformed and non-dict frames are excluded —
those raise. -/
def ignored_frame_A : Option Json → Bool
  | some (.obj fields) =>
    (match jsonLookup fields "type" with
     | some (.str "response.done") => false
     | some (.str "error") => false
     | _ => true)
  | _ => false

/-- Frames the Provider B read loop consumes without ending the exchange: a
malformed frame (decode error, caught), or a decoded JSON object that is
either not a `transcript` frame or a transcript whose `final` flag is
falsy.  Decoded non-dict frames are excluded — those raise. -/
def nonfinal_frame_B : Option Json → Bool
  | none => true
  | some (.obj fields) =>
    (match jsonLookup fields "type" with
     | some (.str "transcript") => !((jsonLookup fields "final").getD (.bool false)).truthy
     | _ => true)
  | some _ => false

theorem oai_read_loop_cons_ignored (f : Option Json) (rest : List (Option Json))
    (hf : ignored_frame_A f = true) :
    oai_read_loop (f :: rest) = oai_read_loop rest := by
  match f with
  | none => simp [ignored_frame_A] at hf
  | some .null => simp [ignored_frame_A] at hf
  | some (.bool b) => simp [ignored_frame_A] at hf
  | some (.num q) => simp [ignored_frame_A] at hf
  | some (.str s) => simp [ignored_frame_A] at hf
  | some (.arr es) => simp [ignored_frame_A] at hf
  | some (.obj fields) =>
    simp only [oai_read_loop]
    split
    · rename_i heq
      simp [ignored_frame_A, heq] at hf
    · rename_i heq
      simp [ignored_frame_A, heq] at hf
    · rfl

theorem uv_read_loop_cons_nonfinal (f : Option Json) (rest : List (Option Json))
    (hf : nonfinal_frame_B f = true) :
    uv_read_loop (f :: rest) = uv_read_loop rest := by
  match f with
  | none => rfl
  | some .null => simp [nonfinal_frame_B] at hf
  | some (.bool b) => simp [nonfinal_frame_B] at hf
  | some (.num q) => simp [nonfinal_frame_B] at hf
  | some (.str s) => simp [nonfinal_frame_B] at hf
  | some (.arr es) => simp [nonfinal_frame_B] at hf
  | some (.obj fields) =>
    simp only [uv_read_loop]
    split
    · rename_i heq
      have hfin : ((jsonLookup fields "final").getD (.bool false)).truthy = false := by
        simp [nonfinal_frame_B, heq] at hf
        exact hf
      rw [hfin]
      simp
    · rfl

theorem oai_read_loop_all_ignored : ∀ (fs : List (Option Json)),
    (∀ f ∈ fs, ignored_frame_A f = true) → oai_read_loop fs = .ok (.str "")
  | [], _ => rfl
  | f :: rest, h => by
    rw [oai_read_loop_cons_ignored f rest (h f (List.mem_cons_self f rest))]
    exact oai_read_loop_all_ignored rest (fun g hg => h g (List.mem_cons_of_mem f hg))

theorem uv_read_loop_all_nonfinal : ∀ (fs : List (Option Json)),
    (∀ f ∈ fs, nonfinal_frame_B f = true) → uv_read_loop fs = .ok (.str "")
  | [], _ => rfl
  | f :: rest, h => by
    rw [uv_read_loop_cons_nonfinal f rest (h f (List.mem_cons_self f rest))]
    exact uv_read_loop_all_nonfinal rest (fun g hg => h g (List.mem_cons_of_mem f hg))

/-- C1: on a `response.done` frame with status `completed`, Provider A
returns the text at `response["output"][0]["content"][0]["text"]`; on any
other status it returns the fixed sentinel error text without raising. -/
theorem oai_done_completed_text_else_sentinel (t s : String) (hs : s ≠ "completed")
    (rest : List (Option Json)) :
    oai_read_loop (some (response_done_frame "completed" (completed_output t)) :: rest) =
      .ok (.str t) ∧
    oai_read_loop (some (response_done_frame s (.arr [])) :: rest) =
      .ok (.str "<Error>") := by
  constructor
  · rfl
  · simp only [oai_read_loop, response_done_frame, jsonLookup, String.reduceEq, reduceIte]
    split
    · rename_i heq
      simp only [Option.some.injEq, Json.str.injEq] at heq
      exact absurd heq hs
    · rfl

/-- C1 witness: a completed `response.done` frame with text `hello` yields
`hello`; status `failed` yields the sentinel. -/
theorem oai_done_completed_text_else_sentinel_witness :
    ("failed" ≠ "completed") ∧
    (oai_read_loop [some (response_done_frame "completed" (completed_output "hello"))] =
       .ok (.str "hello") ∧
     oai_read_loop [some (response_done_frame "failed" (.arr []))] =
       .ok (.str "<Error>")) :=
  ⟨by decide, oai_done_completed_text_else_sentinel "hello" "failed" (by decide) []⟩

/-- C2: over any stream consisting of well-formed transcript frames,
Provider B returns exactly the `text` of the first frame whose `final` flag
is true (the empty string when none is final); non-final frames are skipped,
never concatenated. -/
theorem uv_returns_first_final_text (ps : List (Bool × String)) :
    uv_read_loop (ps.map fun p => some (transcript_frame p.1 p.2)) =
      .ok (.str (((ps.find? fun p => p.1).map Prod.snd).getD "")) := by
  induction ps with
  | nil => rfl
  | cons p rest ih =>
    obtain ⟨fin, txt⟩ := p
    cases fin
    · rw [List.map_cons,
        uv_read_loop_cons_nonfinal _ _
          (by simp [nonfinal_frame_B, transcript_frame, jsonLookup, Json.truthy]),
        ih]
      simp [List.find?]
    · rfl

/-- C9: the extraction on a completed response is unguarded: an empty
`output` array, an empty first `content` array, or a first content part
without a `text` key each make `send_message` raise an uncaught exception
(`IndexError`, `IndexError`, `KeyError` respectively) instead of returning. -/
theorem oai_completed_extraction_unguarded (rest : List (Option Json)) :
    oai_read_loop (some (response_done_frame "completed" (.arr [])) :: rest) =
      .error .indexError ∧
    oai_read_loop (some (response_done_frame "completed"
        (.arr [.obj [("content", .arr [])]])) :: rest) = .error .indexError ∧
    oai_read_loop (some (response_done_frame "completed"
        (.arr [.obj [("content", .arr [.obj [("type", .str "text")]])]])) :: rest) =
      .error .keyError :=
  ⟨rfl, rfl, rfl⟩

/-- C10: the sentinel returned when the provider marks the exchange failed is
exactly the string `<Error>` — even when a well-formed payload is present. -/
theorem oai_sentinel_is_error_string :
    oai_read_loop [some (response_done_frame "failed" (completed_output "ignored"))] =
      .ok (.str "<Error>") := rfl

/-- The `session.updated` acknowledgment frame. -/
def session_updated_ack : Option Json := some (.obj [("type", .str "session.updated")])

/-- C3: exhibits the bug.  On a freshly connected client (the only state a
real run ever produces, since `session_updated` is never assigned `True`),
two successive `update_session` calls both succeed against a server that
acks each with `session.updated` — and the configuration frame is sent on
BOTH calls: the transport has seen two configuration frames, not at most
one, and the flag is still `False` after both calls. -/
theorem update_session_sends_config_twice :
    (let c0 := ((OAIClient.mk0 "Be terse.").connect true).2
     let r1 := c0.update_session [session_updated_ack]
     let r2 := r1.2.update_session [session_updated_ack]
     r1.1 = none ∧ r2.1 = none ∧
     r1.2.session_updated = false ∧ r2.2.session_updated = false ∧
     r2.2.ws = some [session_config_frame OPENAI_REALTIME_DEFAULT_VOICE "Be terse.",
                     session_config_frame OPENAI_REALTIME_DEFAULT_VOICE "Be terse."]) :=
  ⟨rfl, rfl, rfl, rfl, rfl⟩

/-- C4 counterexample: a fresh bridge whose first `send_message` hits a
connect failure propagates the failure, but is NOT left in a clean
no-Connection state — `self.client` remains assigned (to the
partially-constructed client), contradicting the claim. -/
theorem bridge_failed_init_not_clean_cex :
    (let r1 := (VoiceAIModelThread.mk0 "").send_message "hi" false [] []
     r1.1 = some .connectError ∧ r1.2.1.client = some (OAIClient.mk0 "")) :=
  ⟨rfl, rfl⟩

/-- C4 amended: when lazy initialization fails (here: `websockets.connect`
raises), the failure does propagate to the caller of the triggering
`send_message`; but because `_initialize` assigns `self.client` before
awaiting `connect`/`update_session`, the bridge keeps the stale client.  A
subsequent `send_message` therefore skips initialization entirely — even
with the network now healthy it raises `AttributeError` (sending on
`ws = None`) and leaves the bridge state unchanged, instead of retrying
initialization from scratch. -/
theorem bridge_failed_init_keeps_stale_client (text text2 : String)
    (handshake handshake2 incoming2 : List (Option Json)) :
    (let r1 := (VoiceAIModelThread.mk0 "").send_message text false handshake []
     r1.1 = some .connectError ∧
     r1.2.1.client = some (OAIClient.mk0 "") ∧
     (r1.2.1.send_message text2 true handshake2 incoming2).1 = some .attributeError ∧
     (r1.2.1.send_message text2 true handshake2 incoming2).2.1 = r1.2.1) :=
  ⟨rfl, rfl, rfl, rfl⟩

/-- C5 counterexample: on a fresh bridge, one `stop()` returns with the clean
end state, but a second `stop()` never returns (`none`): `stop` is not
idempotent, the second call hangs. -/
theorem stop_twice_hangs_cex :
    ThreadState.fresh.stop =
      some { clientSome := false, loopRunning := false, threadAlive := false } ∧
    ThreadState.fresh.stop.bind ThreadState.stop = none :=
  ⟨rfl, rfl⟩

/-- C5 amended: a first `stop()` — from any state with the loop running,
whether or not a client exists — terminates and yields the clean end state
(no Connection, loop stopped, thread terminated); a second `stop()` then
hangs forever, because the cleanup coroutine is scheduled onto the stopped
event loop and its future is never resolved. -/
theorem stop_once_clean_stop_twice_hangs (c : Bool) :
    (ThreadState.mk c true true).stop =
      some { clientSome := false, loopRunning := false, threadAlive := false } ∧
    (ThreadState.mk c true true).stop.bind ThreadState.stop = none :=
  ⟨rfl, rfl⟩

/-- C6 counterexample: in Provider A a malformed frame does NOT merely get
logged with the loop continuing — `json.loads` raises `JSONDecodeError`
uncaught (the only handler catches `ConnectionClosed`), killing the
exchange even though a well-formed completed response follows. -/
theorem oai_decode_error_fatal_cex :
    oai_read_loop [none, some (response_done_frame "completed" (completed_output "hi"))] =
      .error .decodeError := rfl

/-- C6 amended: only Provider B treats a malformed frame as non-fatal — its
read loop logs the decode error and continues with the next frame; Provider
A has no decode-error handler, so a malformed frame raises an uncaught
`JSONDecodeError` terminating the exchange. -/
theorem decode_error_b_continues_a_fatal (rest : List (Option Json)) :
    uv_read_loop (none :: rest) = uv_read_loop rest ∧
    oai_read_loop (none :: rest) = .error .decodeError :=
  ⟨rfl, rfl⟩

/-- C7 counterexample: the transport delivers one malformed frame and then
closes, with no terminal event ever arriving — and Provider A `send_message`
raises (`JSONDecodeError`) instead of returning the accumulated partial
result (the empty string). -/
theorem oai_closed_after_malformed_raises_cex :
    oai_read_loop [none] = .error .decodeError := rfl

/-- C7 amended: when the transport closes before a terminal event and every
frame delivered before closure is one the loop consumes without raising —
for Provider A a decoded JSON object of unobserved type, for Provider B
additionally malformed frames and non-final transcripts — `send_message`
returns rather than raising or hanging, yielding the accumulated partial
result, which is always the empty string (neither loop accumulates before
its terminal event). -/
theorem transport_closure_returns_partial (fsA fsB : List (Option Json))
    (hA : ∀ f ∈ fsA, ignored_frame_A f = true)
    (hB : ∀ f ∈ fsB, nonfinal_frame_B f = true) :
    oai_read_loop fsA = .ok (.str "") ∧ uv_read_loop fsB = .ok (.str "") :=
  ⟨oai_read_loop_all_ignored fsA hA, uv_read_loop_all_nonfinal fsB hB⟩

/-- C7 witness: Provider A sees one `response.created` frame then closure;
Provider B sees a malformed frame and a non-final transcript then closure;
both return the empty string. -/
theorem transport_closure_returns_partial_witness :
    (∀ f ∈ ([some (Json.obj [("type", Json.str "response.created")])] :
        List (Option Json)), ignored_frame_A f = true) ∧
    (∀ f ∈ ([none, some (transcript_frame false "he")] : List (Option Json)),
        nonfinal_frame_B f = true) ∧
    (oai_read_loop [some (Json.obj [("type", Json.str "response.created")])] =
        .ok (.str "") ∧
     uv_read_loop [none, some (transcript_frame false "he")] = .ok (.str "")) :=
  ⟨by decide, by decide,
   transport_closure_returns_partial _ _ (by decide) (by decide)⟩
